import Mathlib

/-!
Tool registry and dispatch of `server.js`.

A shallow embedding of the two tool-call handlers of `src/server.js` (the
`CallToolRequestSchema` handler used by the stdio transport and the
`POST /tools/call` route of the HTTP transport), of the `ListToolsRequestSchema`
handler, and of the start-up code, followed by the properties the specification
states about them.

JavaScript values are embedded as the JSON values a request can carry plus
`undefined`.  Numbers are embedded on the integers: on the safe-integer range
`[-(2^53 - 1), 2^53 - 1]` IEEE-754 addition and `Number::toString` coincide with
exact integer addition and plain decimal rendering, and the statements about
numbers are made on that range.
-/

namespace McpServer

/-! ## JavaScript values -/

/-- Numbers reachable by the handlers from integer inputs: an integer or `NaN`. -/
inductive JSNumber where
  | int (n : Int)
  | nan
deriving DecidableEq, Repr

/-- A JSON value as delivered by `JSON.parse`, or `undefined`.  An object is the
list of its own properties, each key occurring once. -/
inductive JSValue where
  | undefined
  | null
  | bool (b : Bool)
  | number (n : JSNumber)
  | string (s : String)
  | array (items : List JSValue)
  | object (fields : List (String × JSValue))
deriving Repr

/-- The test `Number.isSafeInteger` on the integers. -/
def isSafeInteger (n : Int) : Prop := -(2 ^ 53 - 1) ≤ n ∧ n ≤ 2 ^ 53 - 1

instance (n : Int) : Decidable (isSafeInteger n) := by
  unfold isSafeInteger; infer_instance

/-- Default decimal rendering of an integer (`Number::toString`, radix 10). -/
def intToString (n : Int) : String :=
  if n < 0 then "-" ++ Nat.repr n.natAbs else Nat.repr n.natAbs

/-- The operation `Number::toString`; the integer case is exact on the safe range. -/
def numberToString : JSNumber → String
  | .int n => intToString n
  | .nan => "NaN"

/-- The operation `Number::add`: `NaN` is absorbing; the integer case is exact as
long as operands and sum are safe integers. -/
def numAdd : JSNumber → JSNumber → JSNumber
  | .int a, .int b => .int (a + b)
  | _, _ => .nan

mutual
/-- The abstract operation `ToString`, as applied by a template literal
`${v}`: arrays render through `Array.prototype.join`, plain objects through
`Object.prototype.toString`. -/
def jsToString : JSValue → String
  | .undefined => "undefined"
  | .null => "null"
  | .bool b => if b then "true" else "false"
  | .number n => numberToString n
  | .string s => s
  | .array items => joinItems items
  | .object _ => "[object Object]"
/-- The method `Array.prototype.join(",")`: `undefined` and `null` elements render
empty. -/
def joinItems : List JSValue → String
  | [] => ""
  | x :: rest =>
    let head := match x with
      | .undefined => ""
      | .null => ""
      | v => jsToString v
    match rest with
    | [] => head
    | _ :: _ => head ++ "," ++ joinItems rest
end

/-- The operation `ToNumber` on the values whose primitive form is not a string; `none` for
strings, arrays and objects, whose primitive form is a string. -/
def nonStringToNumber : JSValue → Option JSNumber
  | .undefined => some .nan
  | .null => some (.int 0)
  | .bool b => some (.int (if b then 1 else 0))
  | .number n => some n
  | .string _ => none
  | .array _ => none
  | .object _ => none

/-- The binary `+` operator: string concatenation as soon as one operand has a
string primitive form, numeric addition otherwise. -/
def jsAdd (l r : JSValue) : JSValue :=
  match nonStringToNumber l, nonStringToNumber r with
  | some x, some y => .number (numAdd x y)
  | _, _ => .string (jsToString l ++ jsToString r)

/-- Errors a handler can throw: `new Error(message)` or a `TypeError` raised by
the runtime. -/
inductive JSError where
  | error (message : String)
  | typeError (message : String)
deriving DecidableEq, Repr

/-- The `message` property of a thrown error. -/
def JSError.message : JSError → String
  | .error m => m
  | .typeError m => m

/-- The property names the handlers read.  None of them is defined on a built-in
prototype, so reading one from a primitive, an array or an object without that
own property yields `undefined`. -/
inductive PropKey where
  | message
  | a
  | b
  | name
  | arguments
deriving DecidableEq, Repr

/-- The property name as a string. -/
def PropKey.toString : PropKey → String
  | .message => "message"
  | .a => "a"
  | .b => "b"
  | .name => "name"
  | .arguments => "arguments"

/-- Property read `v.key`: a `TypeError` on `undefined` and `null` (message as
worded by V8), the own property of an object, `undefined` otherwise. -/
def getProp (v : JSValue) (key : PropKey) : Except JSError JSValue :=
  match v with
  | .undefined =>
    .error (.typeError ("Cannot read properties of undefined (reading \x27" ++ key.toString ++ "\x27)"))
  | .null =>
    .error (.typeError ("Cannot read properties of null (reading \x27" ++ key.toString ++ "\x27)"))
  | .object fields => .ok ((fields.lookup key.toString).getD .undefined)
  | _ => .ok .undefined

/-- Strict equality `v === s` against a string literal, as used by `switch`. -/
def strictEqualsString (v : JSValue) (s : String) : Bool :=
  match v with
  | .string x => x == s
  | _ => false

/-! ## The clock -/

/-- Decimal rendering of `n` left-padded with zeros to `width` digits. -/
def padZero (width n : Nat) : String :=
  let digits := Nat.repr n
  String.mk (List.replicate (width - digits.length) '0') ++ digits

/-- Year of the proleptic Gregorian calendar as `toISOString` prints it: four
digits for years 0 to 9999, a sign and six digits otherwise. -/
def isoYear (y : Int) : String :=
  if 0 ≤ y ∧ y ≤ 9999 then padZero 4 y.natAbs
  else if y < 0 then "-" ++ padZero 6 y.natAbs
  else "+" ++ padZero 6 y.natAbs

/-- Calendar date (year, month, day) of a day number counted from 1970-01-01. -/
def civilFromDays (z : Int) : Int × Nat × Nat :=
  let shifted := z + 719468
  let era := shifted / 146097
  let doe := (shifted % 146097).toNat
  let yoe := (doe - doe / 1460 + doe / 36524 - doe / 146096) / 365
  let doy := doe - (365 * yoe + yoe / 4 - yoe / 100)
  let mp := (5 * doy + 2) / 153
  let d := doy - (153 * mp + 2) / 5 + 1
  let m := if mp < 10 then mp + 3 else mp - 9
  let y := (yoe : Int) + era * 400
  (if m ≤ 2 then y + 1 else y, m, d)

/-- The method `Date.prototype.toISOString` on the time value `t`, in milliseconds since
the epoch: `YYYY-MM-DDTHH:mm:ss.sssZ`, always in UTC. -/
def toISOString (t : Int) : String :=
  let msPerDay : Int := 86400000
  let (y, m, d) := civilFromDays (t / msPerDay)
  let ms := (t % msPerDay).toNat
  isoYear y ++ "-" ++ padZero 2 m ++ "-" ++ padZero 2 d ++ "T"
    ++ padZero 2 (ms / 3600000) ++ ":" ++ padZero 2 (ms / 60000 % 60) ++ ":"
    ++ padZero 2 (ms / 1000 % 60) ++ "." ++ padZero 3 (ms % 1000) ++ "Z"

/-! ## Data model -/

/-- One item of a tool result: `{ type: "text", text }`. -/
structure ContentItem where
  type : String
  text : String
deriving DecidableEq, Repr

/-- The response envelope of a tool call: `{ content: [...] }`. -/
structure ToolResult where
  content : List ContentItem
deriving DecidableEq, Repr

/-- The result object every case of the handlers builds:
`{ content: [{ type: "text", text }] }`. -/
def textResult (text : String) : ToolResult :=
  { content := [{ type := "text", text := text }] }

/-! ## Tool calls -/

/-- The `CallToolRequestSchema` handler (stdio transport), run on
`request.params = { name, arguments: args }` with the clock reading `now`. -/
def callToolHandler (now : Int) (name args : JSValue) : Except JSError ToolResult :=
  if strictEqualsString name "echo" then do
    let message ← getProp args .message
    pure (textResult ("Echo: " ++ jsToString message))
  else if strictEqualsString name "add" then do
    let a ← getProp args .a
    let b ← getProp args .b
    let sum := jsAdd a b
    pure (textResult ("The sum of " ++ jsToString a ++ " and " ++ jsToString b
      ++ " is " ++ jsToString sum))
  else if strictEqualsString name "get_time" then
    pure (textResult ("Current server time: " ++ toISOString now))
  else
    throw (.error ("Unknown tool: " ++ jsToString name))

/-- The `switch` of the `POST /tools/call` route (HTTP transport): the value of
`result` when the switch completes, or the error thrown inside it. -/
def toolsCallSwitch (now : Int) (name args : JSValue) : Except JSError ToolResult :=
  if strictEqualsString name "echo" then do
    let message ← getProp args .message
    pure { content := [{ type := "text", text := "Echo: " ++ jsToString message }] }
  else if strictEqualsString name "add" then do
    let a ← getProp args .a
    let b ← getProp args .b
    let sum := jsAdd a b
    pure { content := [{ type := "text", text := ("The sum of " ++ jsToString a ++ " and "
        ++ jsToString b ++ " is " ++ jsToString sum) }] }
  else if strictEqualsString name "get_time" then
    pure { content := [{ type := "text", text := "Current server time: " ++ toISOString now }] }
  else
    throw (.error ("Unknown tool: " ++ jsToString name))

/-- Body of an HTTP response sent with `res.json`. -/
inductive ResponseBody where
  | result (r : ToolResult)
  | error (message : String)
deriving DecidableEq, Repr

/-- Status code and JSON body of an HTTP response. -/
structure HttpResponse where
  status : Nat
  body : ResponseBody
deriving DecidableEq, Repr

/-- The `try` block of the `POST /tools/call` route: destructuring of `req.body`
followed by the switch. -/
def toolsCallTry (now : Int) (body : JSValue) : Except JSError ToolResult :=
  match body with
  | .undefined => .error (.typeError
      "Cannot destructure property \x27name\x27 of \x27req.body\x27 as it is undefined.")
  | .null => .error (.typeError
      "Cannot destructure property \x27name\x27 of \x27req.body\x27 as it is null.")
  | _ => do
    let name ← getProp body .name
    let args ← getProp body .arguments
    toolsCallSwitch now name args

/-- The `POST /tools/call` route: `res.json(result)` answers with status 200,
the `catch` clause with status 400 and `{ error: error.message }`. -/
def postToolsCall (now : Int) (body : JSValue) : HttpResponse :=
  match toolsCallTry now body with
  | .ok result => { status := 200, body := .result result }
  | .error e => { status := 400, body := .error e.message }

/-! ## Tool listing -/

/-- The `ListToolsRequestSchema` handler: the object literal it returns. -/
def listToolsHandler : JSValue :=
  .object [
    ("tools", .array [
      .object [
        ("name", .string "echo"),
        ("description", .string "Echoes back the input message"),
        ("inputSchema", .object [
          ("type", .string "object"),
          ("properties", .object [
            ("message", .object [
              ("type", .string "string"),
              ("description", .string "The message to echo back")])]),
          ("required", .array [.string "message"])])],
      .object [
        ("name", .string "add"),
        ("description", .string "Adds two numbers together"),
        ("inputSchema", .object [
          ("type", .string "object"),
          ("properties", .object [
            ("a", .object [
              ("type", .string "number"),
              ("description", .string "First number")]),
            ("b", .object [
              ("type", .string "number"),
              ("description", .string "Second number")])]),
          ("required", .array [.string "a", .string "b"])])],
      .object [
        ("name", .string "get_time"),
        ("description", .string "Returns the current server time"),
        ("inputSchema", .object [
          ("type", .string "object"),
          ("properties", .object [])])]])]

/-- Own property `key` of an object, `none` when absent or when `v` is not an
object. -/
def field (v : JSValue) (key : String) : Option JSValue :=
  match v with
  | .object fields => fields.lookup key
  | _ => none

/-- The string held by a value, if it is a string. -/
def asString : JSValue → Option String
  | .string s => some s
  | _ => none

/-- The elements of a value, if it is an array. -/
def asArray : JSValue → Option (List JSValue)
  | .array items => some items
  | _ => none

/-- The own keys of a value, if it is an object. -/
def ownKeys : JSValue → Option (List String)
  | .object fields => some (fields.map Prod.fst)
  | _ => none

/-- The descriptors in the `tools` array of a listing. -/
def toolsOf (listing : JSValue) : List JSValue :=
  ((field listing "tools").bind asArray).getD []

/-- The `name` of each descriptor of a listing, in order. -/
def toolNames (listing : JSValue) : List (Option String) :=
  (toolsOf listing).map fun d => (field d "name").bind asString

/-- The `required` list of a schema, when it is present and an array of
strings. -/
def requiredOf (schema : JSValue) : Option (List String) :=
  ((field schema "required").bind asArray).bind fun items => items.mapM asString

/-- The keys of the `properties` object of a schema, `[]` when absent. -/
def propertyKeys (schema : JSValue) : List String :=
  ((field schema "properties").bind ownKeys).getD []

/-- The schema invariant as the specification words it: the schema has a
`type`, and when that type is `"object"` it has a `required` list whose entries
are all keys of `properties`. -/
def schemaHasRequired (schema : JSValue) : Bool :=
  match (field schema "type").bind asString with
  | none => false
  | some t =>
    if t = "object" then
      match requiredOf schema with
      | none => false
      | some req => req.all fun r => (propertyKeys schema).contains r
    else true

/-- The schema invariant with an optional `required`: the schema has a `type`,
and when that type is `"object"` every entry of its `required` list, if it has
one, is a key of `properties`. -/
def schemaRequiredWithinProperties (schema : JSValue) : Bool :=
  match (field schema "type").bind asString with
  | none => false
  | some t =>
    if t = "object" then
      match field schema "required" with
      | none => true
      | some _ =>
        match requiredOf schema with
        | none => false
        | some req => req.all fun r => (propertyKeys schema).contains r
    else true

/-- The `inputSchema` of each descriptor of a listing, in order. -/
def inputSchemas (listing : JSValue) : List (Option JSValue) :=
  (toolsOf listing).map fun d => field d "inputSchema"

/-! ## Requests served one after the other -/

/-- A request reaching the server. -/
inductive Request where
  | listTools
  | callTool (name args : JSValue)

/-- The answer to a request. -/
inductive Response where
  | listing (result : JSValue)
  | call (result : Except JSError ToolResult)

/-- One request handled at clock reading `now`.  The handlers close over no
mutable variable, so no state is threaded from one request to the next. -/
def handleRequest (now : Int) : Request → Response
  | .listTools => .listing listToolsHandler
  | .callTool name args => .call (callToolHandler now name args)

/-- The answers to a sequence of requests, each paired with its clock reading. -/
def serve (requests : List (Int × Request)) : List Response :=
  requests.map fun r => handleRequest r.1 r.2

/-! ## Start-up -/

/-- What start-up launches. -/
inductive StartupAction where
  | listen (port : JSValue)
  | runStdio
deriving Repr

/-- The constant `PORT = process.env.PORT || 3000`: an unset or empty variable
is falsy. -/
def PORT (env : List (String × String)) : JSValue :=
  match env.lookup "PORT" with
  | none => .number (.int 3000)
  | some p => if p = "" then .number (.int 3000) else .string p

/-- The top-level statements of the module that start transports, in order:
`app.listen(PORT, ...)`, then `runStdio()` when `MCP_TRANSPORT === 'stdio'`. -/
def startup (env : List (String × String)) : List StartupAction :=
  [.listen (PORT env)] ++
    (if env.lookup "MCP_TRANSPORT" = some "stdio" then [.runStdio] else [])

end McpServer

namespace McpServer

/-! ## The two handlers agree -/

/-- The switch of the HTTP route computes the same outcome as the stdio handler. -/
theorem toolsCallSwitch_eq (now : Int) (name args : JSValue) :
    toolsCallSwitch now name args = callToolHandler now name args := by
  unfold toolsCallSwitch callToolHandler textResult
  rfl

/-- A name different from the three registered ones falls through to `default`. -/
theorem callToolHandler_default (now : Int) (name : String) (args : JSValue)
    (h : name ∉ ["echo", "add", "get_time"]) :
    callToolHandler now (.string name) args = .error (.error ("Unknown tool: " ++ name)) := by
  simp only [List.mem_cons, List.mem_singleton, List.not_mem_nil, or_false, not_or] at h
  obtain ⟨h1, h2, h3⟩ := h
  simp [callToolHandler, strictEqualsString, h1, h2, h3, jsToString, throw, throwThe,
    MonadExceptOf.throw]

/-- A registered name never ends in the `Error` thrown by `default`. -/
theorem callToolHandler_registered (now : Int) (name : String) (args : JSValue)
    (h : name ∈ ["echo", "add", "get_time"]) (msg : String) :
    callToolHandler now (.string name) args ≠ .error (.error msg) := by
  simp only [List.mem_cons, List.mem_singleton, List.not_mem_nil, or_false] at h
  rcases h with h | h | h <;> subst h <;> cases args <;>
    simp [callToolHandler, strictEqualsString, getProp, bind, Except.bind, pure, Except.pure]

/-- Reading `name` and `arguments` off an object body and running the switch. -/
theorem toolsCallTry_object (now : Int) (fields : List (String × JSValue)) :
    toolsCallTry now (.object fields)
      = toolsCallSwitch now ((fields.lookup "name").getD .undefined)
          ((fields.lookup "arguments").getD .undefined) := by
  simp [toolsCallTry, getProp, PropKey.toString, bind, Except.bind]

/-- The schemas of the three descriptors, in order. -/
theorem inputSchemas_listToolsHandler :
    inputSchemas listToolsHandler =
      [ some (.object [
          ("type", .string "object"),
          ("properties", .object [
            ("message", .object [
              ("type", .string "string"),
              ("description", .string "The message to echo back")])]),
          ("required", .array [.string "message"])]),
        some (.object [
          ("type", .string "object"),
          ("properties", .object [
            ("a", .object [
              ("type", .string "number"),
              ("description", .string "First number")]),
            ("b", .object [
              ("type", .string "number"),
              ("description", .string "Second number")])]),
          ("required", .array [.string "a", .string "b"])]),
        some (.object [
          ("type", .string "object"),
          ("properties", .object [])]) ] := by
  rfl

/-- The rendering of the epoch, of a leap day, of the last millisecond before
the epoch and of the first year printed with six digits. -/
theorem toISOString_samples :
    toISOString 0 = "1970-01-01T00:00:00.000Z"
    ∧ toISOString 1709251199999 = "2024-02-29T23:59:59.999Z"
    ∧ toISOString (-1) = "1969-12-31T23:59:59.999Z"
    ∧ toISOString 253402300800000 = "+010000-01-01T00:00:00.000Z" := by
  decide

/-- Without `MCP_TRANSPORT=stdio` only the HTTP listener is started, on `PORT`. -/
theorem startup_default (env : List (String × String))
    (h : env.lookup "MCP_TRANSPORT" ≠ some "stdio") :
    startup env = [.listen (PORT env)] := by
  simp [startup, h]

/-! ## Properties of the tool calls -/

/-- C1: for every string `s`, calling `echo` with `{message: s}` succeeds on both
transports with the single content item `{type: "text", text: "Echo: " ++ s}`,
and the HTTP route answers 200 with that result. -/
theorem echo_returns_message (now : Int) (s : String) :
    callToolHandler now (.string "echo") (.object [("message", .string s)])
        = .ok { content := [{ type := "text", text := "Echo: " ++ s }] }
    ∧ toolsCallSwitch now (.string "echo") (.object [("message", .string s)])
        = .ok { content := [{ type := "text", text := "Echo: " ++ s }] }
    ∧ postToolsCall now (.object [("name", .string "echo"),
          ("arguments", .object [("message", .string s)])])
        = { status := 200,
            body := .result { content := [{ type := "text", text := "Echo: " ++ s }] } } := by
  have h : callToolHandler now (.string "echo") (.object [("message", .string s)])
      = .ok { content := [{ type := "text", text := "Echo: " ++ s }] } := by
    simp [callToolHandler, strictEqualsString, getProp, PropKey.toString, List.lookup,
      jsToString, textResult, bind, Except.bind, pure, Except.pure]
  refine ⟨h, (toolsCallSwitch_eq _ _ _).trans h, ?_⟩
  simp [postToolsCall, toolsCallTry_object, List.lookup, toolsCallSwitch_eq, h]

/-- C2: for safe integers `a` and `b` whose sum is a safe integer, calling `add`
with `{a, b}` succeeds on both transports with the single content item of type
`"text"` and text `"The sum of a and b is (a+b)"`, all three in decimal. -/
theorem add_returns_sum (now : Int) (a b : Int)
    (_ha : isSafeInteger a) (_hb : isSafeInteger b) (_hab : isSafeInteger (a + b)) :
    callToolHandler now (.string "add")
        (.object [("a", .number (.int a)), ("b", .number (.int b))])
        = .ok { content := [{ type := "text", text := "The sum of " ++ intToString a
            ++ " and " ++ intToString b ++ " is " ++ intToString (a + b) }] }
    ∧ toolsCallSwitch now (.string "add")
        (.object [("a", .number (.int a)), ("b", .number (.int b))])
        = .ok { content := [{ type := "text", text := "The sum of " ++ intToString a
            ++ " and " ++ intToString b ++ " is " ++ intToString (a + b) }] } := by
  have h : callToolHandler now (.string "add")
        (.object [("a", .number (.int a)), ("b", .number (.int b))])
        = .ok { content := [{ type := "text", text := "The sum of " ++ intToString a
            ++ " and " ++ intToString b ++ " is " ++ intToString (a + b) }] } := by
    simp [callToolHandler, strictEqualsString, getProp, PropKey.toString, List.lookup,
      jsToString, jsAdd, nonStringToNumber, numAdd, numberToString, textResult, bind,
      Except.bind, pure, Except.pure]
  exact ⟨h, (toolsCallSwitch_eq _ _ _).trans h⟩

/-- Witness of C2 at `a = 2`, `b = 3`: the text is `"The sum of 2 and 3 is 5"`. -/
theorem add_returns_sum_witness :
    isSafeInteger 2 ∧ isSafeInteger 3 ∧ isSafeInteger (2 + 3)
    ∧ callToolHandler 0 (.string "add")
        (.object [("a", .number (.int 2)), ("b", .number (.int 3))])
        = .ok { content := [{ type := "text", text := "The sum of 2 and 3 is 5" }] }
    ∧ toolsCallSwitch 0 (.string "add")
        (.object [("a", .number (.int 2)), ("b", .number (.int 3))])
        = .ok { content := [{ type := "text", text := "The sum of 2 and 3 is 5" }] } :=
  ⟨by decide, by decide, by decide,
    (add_returns_sum 0 2 3 (by decide) (by decide) (by decide)).1.trans (by rfl),
    (add_returns_sum 0 2 3 (by decide) (by decide) (by decide)).2.trans (by rfl)⟩

/-- C3: a name other than `"echo"`, `"add"`, `"get_time"` makes both handlers
throw the error `Unknown tool: <name>` whatever the arguments, and that error is
thrown by neither handler for one of the three names. -/
theorem unknown_tool_exactly_when_unregistered (now : Int) (name : String) (args : JSValue) :
    (name ∉ ["echo", "add", "get_time"] →
      callToolHandler now (.string name) args = .error (.error ("Unknown tool: " ++ name))
      ∧ toolsCallSwitch now (.string name) args = .error (.error ("Unknown tool: " ++ name)))
    ∧ (∀ msg : String,
        (callToolHandler now (.string name) args = .error (.error msg)
          ∨ toolsCallSwitch now (.string name) args = .error (.error msg)) →
        name ∉ ["echo", "add", "get_time"]) := by
  constructor
  · intro h
    exact ⟨callToolHandler_default now name args h,
      (toolsCallSwitch_eq _ _ _).trans (callToolHandler_default now name args h)⟩
  · intro msg h hmem
    rw [toolsCallSwitch_eq, or_self] at h
    exact callToolHandler_registered now name args hmem msg h

/-- Witness of C3 at the name `"missing_tool"` with empty arguments. -/
theorem unknown_tool_exactly_when_unregistered_witness :
    "missing_tool" ∉ ["echo", "add", "get_time"]
    ∧ callToolHandler 0 (.string "missing_tool") (.object [])
        = .error (.error "Unknown tool: missing_tool")
    ∧ toolsCallSwitch 0 (.string "missing_tool") (.object [])
        = .error (.error "Unknown tool: missing_tool") :=
  ⟨by decide,
    (unknown_tool_exactly_when_unregistered 0 "missing_tool" (.object [])).1 (by decide)⟩

/-- C4: the handlers do not validate their arguments.  `add` called with
`{a: "x", b: 2}` succeeds with the text `"The sum of x and 2 is x2"`, and `echo`
called with `{}` succeeds with the text `"Echo: undefined"`, on both transports;
the HTTP route answers 200 in both cases. -/
theorem mistyped_or_missing_arguments_accepted (now : Int) :
    callToolHandler now (.string "add") (.object [("a", .string "x"), ("b", .number (.int 2))])
        = .ok { content := [{ type := "text", text := "The sum of x and 2 is x2" }] }
    ∧ toolsCallSwitch now (.string "add") (.object [("a", .string "x"), ("b", .number (.int 2))])
        = .ok { content := [{ type := "text", text := "The sum of x and 2 is x2" }] }
    ∧ callToolHandler now (.string "echo") (.object [])
        = .ok { content := [{ type := "text", text := "Echo: undefined" }] }
    ∧ toolsCallSwitch now (.string "echo") (.object [])
        = .ok { content := [{ type := "text", text := "Echo: undefined" }] }
    ∧ (postToolsCall now (.object [("name", .string "add"),
          ("arguments", .object [("a", .string "x"), ("b", .number (.int 2))])])).status = 200
    ∧ (postToolsCall now (.object [("name", .string "echo"),
          ("arguments", .object [])])).status = 200 := by
  refine ⟨rfl, rfl, rfl, rfl, rfl, rfl⟩

/-- C6: for every name and every arguments value, the switch of the HTTP route
and the stdio handler have the same outcome at the same clock reading, the same
result or the same error; so has the whole `try` block of the route on a body
`{name, arguments}` and on a body `{name}` without arguments. -/
theorem transports_agree (now : Int) (name args : JSValue) :
    toolsCallSwitch now name args = callToolHandler now name args
    ∧ toolsCallTry now (.object [("name", name), ("arguments", args)])
        = callToolHandler now name args
    ∧ toolsCallTry now (.object [("name", name)])
        = callToolHandler now name .undefined := by
  refine ⟨toolsCallSwitch_eq _ _ _, ?_, ?_⟩
  · rw [toolsCallTry_object, toolsCallSwitch_eq]; rfl
  · rw [toolsCallTry_object, toolsCallSwitch_eq]; rfl

/-- C7: on a body that is an object, with `name` and `arguments` read off it,
the route answers 200 with exactly the result when the switch returns one and
400 with exactly `{error: message}` when the switch throws; on no body at all is
the status 500. -/
theorem postToolsCall_status (now : Int) (fields : List (String × JSValue)) :
    (∀ result : ToolResult,
      toolsCallSwitch now ((fields.lookup "name").getD .undefined)
          ((fields.lookup "arguments").getD .undefined) = .ok result →
      postToolsCall now (.object fields) = { status := 200, body := .result result })
    ∧ (∀ e : JSError,
      toolsCallSwitch now ((fields.lookup "name").getD .undefined)
          ((fields.lookup "arguments").getD .undefined) = .error e →
      postToolsCall now (.object fields) = { status := 400, body := .error e.message })
    ∧ (∀ body : JSValue, (postToolsCall now body).status ≠ 500) := by
  refine ⟨?_, ?_, ?_⟩
  · intro result h
    simp [postToolsCall, toolsCallTry_object, h]
  · intro e h
    simp [postToolsCall, toolsCallTry_object, h]
  · intro body
    unfold postToolsCall
    cases toolsCallTry now body <;> simp

/-- Witness of C7: `{name: "echo", arguments: {message: "hi"}}` is answered 200
with the echo result, `{name: "missing_tool", arguments: {}}` is answered 400
with the error message. -/
theorem postToolsCall_status_witness :
    postToolsCall 0 (.object [("name", .string "echo"),
        ("arguments", .object [("message", .string "hi")])])
      = { status := 200,
          body := .result { content := [{ type := "text", text := "Echo: hi" }] } }
    ∧ postToolsCall 0 (.object [("name", .string "missing_tool"), ("arguments", .object [])])
      = { status := 400, body := .error "Unknown tool: missing_tool" } :=
  ⟨(postToolsCall_status 0 [("name", .string "echo"),
        ("arguments", .object [("message", .string "hi")])]).1 _ rfl,
    (postToolsCall_status 0 [("name", .string "missing_tool"),
        ("arguments", .object [])]).2.1 (.error "Unknown tool: missing_tool") rfl⟩

/-- C9: for every arguments value, `undefined` included, and every clock reading
`now`, calling `get_time` succeeds on both transports with the single content
item of type `"text"` and text `"Current server time: " ++ toISOString now`; the
HTTP route answers 200 with it when the body carries no arguments at all. -/
theorem get_time_ignores_arguments (now : Int) (args : JSValue) :
    callToolHandler now (.string "get_time") args
        = .ok { content := [
            { type := "text", text := "Current server time: " ++ toISOString now }] }
    ∧ toolsCallSwitch now (.string "get_time") args
        = .ok { content := [
            { type := "text", text := "Current server time: " ++ toISOString now }] }
    ∧ postToolsCall now (.object [("name", .string "get_time")])
        = { status := 200, body := .result { content := [
            { type := "text", text := "Current server time: " ++ toISOString now }] } } := by
  refine ⟨rfl, rfl, rfl⟩

/-! ## Properties of the tool listing -/

/-- C5: the listing holds exactly three descriptors, named `"echo"`, `"add"`,
`"get_time"` in this order, and a `listTools` request is answered with this
same listing at any position of any sequence of requests. -/
theorem listTools_three_and_stable (requests : List (Int × Request)) (i : Nat) (now : Int)
    (h : requests[i]? = some (now, .listTools)) :
    (toolsOf listToolsHandler).length = 3
    ∧ toolNames listToolsHandler = [some "echo", some "add", some "get_time"]
    ∧ (serve requests)[i]? = some (.listing listToolsHandler) := by
  refine ⟨rfl, rfl, ?_⟩
  simp [serve, List.getElem?_map, h, handleRequest]

/-- Witness of C5: the third request of a sequence, a `listTools` that follows
a `listTools` and a call of `add`. -/
theorem listTools_three_and_stable_witness :
    (toolsOf listToolsHandler).length = 3
    ∧ toolNames listToolsHandler = [some "echo", some "add", some "get_time"]
    ∧ (serve [(0, .listTools),
          (5, .callTool (.string "add")
            (.object [("a", .number (.int 2)), ("b", .number (.int 3))])),
          (9, .listTools)])[2]? = some (.listing listToolsHandler) :=
  listTools_three_and_stable _ 2 9 rfl

/-- C8 as stated fails: the schema of `get_time` has type `"object"` and no
`required` list, so not every schema satisfies the invariant as worded. -/
theorem get_time_schema_lacks_required :
    ¬ ((toolNames listToolsHandler).Nodup
      ∧ ∀ s ∈ inputSchemas listToolsHandler,
          ∃ schema, s = some schema ∧ schemaHasRequired schema = true) := by
  rintro ⟨-, h⟩
  obtain ⟨schema, hs, hreq⟩ := h (some (.object [
      ("type", .string "object"), ("properties", .object [])]))
    (by rw [inputSchemas_listToolsHandler]; simp)
  cases hs
  revert hreq
  decide

/-- C8 amended: the tool names are pairwise distinct, every descriptor has an
`inputSchema` with a `type`, and in every schema of type `"object"` the entries
of the `required` list, when there is one, are keys of `properties`; `echo`
requires `message`, `add` requires `a` and `b`, `get_time` has no `required`. -/
theorem registry_invariant :
    (toolNames listToolsHandler).Nodup
    ∧ (∀ s ∈ inputSchemas listToolsHandler,
        ∃ schema, s = some schema ∧ schemaRequiredWithinProperties schema = true)
    ∧ (inputSchemas listToolsHandler).map (fun s => s.bind requiredOf)
        = [some ["message"], some ["a", "b"], none] := by
  refine ⟨by decide, ?_, rfl⟩
  intro s hs
  rw [inputSchemas_listToolsHandler] at hs
  simp only [List.mem_cons, List.mem_singleton, List.not_mem_nil, or_false] at hs
  rcases hs with rfl | rfl | rfl <;> exact ⟨_, rfl, by decide⟩

/-! ## Start-up -/

/-- C10: with `MCP_TRANSPORT=stdio` and `PORT` unset, start-up first starts the
HTTP listener on port 3000 and then the stdio transport: both are started. -/
theorem startup_stdio_also_listens :
    startup [("MCP_TRANSPORT", "stdio")] = [.listen (.number (.int 3000)), .runStdio] := by
  rfl

end McpServer

